import Mathlib

/-!
# Verification of the news-application core logic

A shallow embedding of the role-based news publishing application:
the data model (users with roles and subscription sets, publishers,
articles), the subscription-based visibility resolver, the subscription
manager, the approval workflow and the notification fan-out
(the `approve_article` view together with the `post_save` signal handler
`handle_article_approval`), and the article CRUD views.

Database rows are lists of records; queryset operations (`filter`,
`find?`/`get_object_or_404`, `union`/`distinct`, `order_by`) become list
operations.  Side effects of the notification paths (email attempts,
social posts) are collected in an explicit `Effects` value.
-/

namespace NewsApp

/-- The three user roles of `CustomUser.ROLE_CHOICES`. -/
inductive Role where
  | reader
  | journalist
  | editor
deriving DecidableEq, Repr

/-- A `CustomUser` row: id, role, and the two many-to-many subscription
sets (`subscribed_journalists`, `subscribed_publishers`), stored as lists
of ids kept duplicate-free by the set-semantics of m2m `add`/`remove`. -/
structure User where
  id : Nat
  role : Role
  subscribed_journalists : List Nat
  subscribed_publishers : List Nat
deriving DecidableEq, Repr

/-- A `Publisher` row (only the identity matters here). -/
structure Publisher where
  id : Nat
  name : String
deriving DecidableEq, Repr

/-- An `Article` row: author and publisher are foreign keys by id,
`publisher` is nullable, `created_at` is an abstract timestamp. -/
structure Article where
  id : Nat
  title : String
  content : String
  author : Nat
  publisher : Option Nat
  is_approved : Bool
  created_at : Nat
deriving DecidableEq, Repr

/-- The database state: the three tables the claims touch. -/
structure DB where
  users : List User
  publishers : List Publisher
  articles : List Article
deriving DecidableEq, Repr

/-- The observable side effects of one request: the user ids to which an
email send was attempted, in order, and the number of `post_to_twitter`
calls made. -/
structure Effects where
  emailsTo : List Nat
  twitterPosts : Nat
deriving DecidableEq, Repr

/-- No side effects. -/
def Effects.none : Effects := ⟨[], 0⟩

/-- Sequencing of side effects. -/
def Effects.append (e₁ e₂ : Effects) : Effects :=
  ⟨e₁.emailsTo ++ e₂.emailsTo, e₁.twitterPosts + e₂.twitterPosts⟩

/-! ## Queries over the user table -/

/-- `CustomUser.objects.filter(role='reader')` — the audience of the
`approve_article` view's own email loop. -/
def readers (users : List User) : List User :=
  users.filter (fun u => u.role = Role.reader)

/-- `CustomUser.objects.filter(role='reader', subscribed_journalists=author)`
(the `.distinct()` is a no-op on a duplicate-free table). -/
def journalistSubscribers (users : List User) (authorId : Nat) : List User :=
  users.filter (fun u => u.role = Role.reader ∧ authorId ∈ u.subscribed_journalists)

/-- `CustomUser.objects.filter(role='reader', subscribed_publishers=publisher)`. -/
def publisherSubscribers (users : List User) (publisherId : Nat) : List User :=
  users.filter (fun u => u.role = Role.reader ∧ publisherId ∈ u.subscribed_publishers)

/-- Queryset `union`: SQL `UNION`, i.e. concatenation with the rows already
present removed from the second operand. -/
def qsUnion (xs ys : List User) : List User :=
  xs ++ ys.filter (fun y => y ∉ xs)

/-- The audience computed by the `post_save` signal handler: subscribers of
the article's author, united with subscribers of its publisher when set. -/
def signalAudience (users : List User) (a : Article) : List User :=
  let subs := journalistSubscribers users a.author
  match a.publisher with
  | Option.none => subs
  | Option.some p => qsUnion subs (publisherSubscribers users p)

/-- `handle_article_approval` (`news_app/signals.py`): on every `post_save`
of an `Article` with `created=False` and `is_approved=True`, attempt one
email per audience member and one social post; otherwise do nothing. -/
def handle_article_approval (users : List User) (inst : Article) (created : Bool) : Effects :=
  if !created && inst.is_approved then
    ⟨(signalAudience users inst).map User.id, 1⟩
  else
    Effects.none

/-! ## Persistence primitives -/

/-- `Article.objects.get(id=articleId)` / `get_object_or_404`. -/
def findArticle (db : DB) (articleId : Nat) : Option Article :=
  db.articles.find? (fun a => a.id = articleId)

/-- `Publisher.objects.get(id=pid)`. -/
def findPublisher (db : DB) (pid : Nat) : Option Publisher :=
  db.publishers.find? (fun p => p.id = pid)

/-- Overwrite the row with the given article's id. -/
def DB.setArticle (db : DB) (a : Article) : DB :=
  { db with articles := db.articles.map (fun x => if x.id = a.id then a else x) }

/-- `article.save()` on an existing row: the `UPDATE`, followed by the
`post_save` signal with `created=False`. -/
def saveExisting (db : DB) (a : Article) : DB × Effects :=
  (db.setArticle a, handle_article_approval db.users a false)

/-- Apply `f` to the user row with the given id. -/
def DB.updateUser (db : DB) (userId : Nat) (f : User → User) : DB :=
  { db with users := db.users.map (fun u => if u.id = userId then f u else u) }

/-- m2m `add`: insert if absent (set semantics, no duplicate). -/
def addId (s : List Nat) (x : Nat) : List Nat :=
  if x ∈ s then s else s ++ [x]

/-- m2m `remove`: delete if present; a no-op on an absent element. -/
def removeId (s : List Nat) (x : Nat) : List Nat :=
  s.filter (fun y => y ≠ x)

/-! ## Approval workflow (`approve_article`) -/

/-- Outcome reported by the `approve_article` view. -/
inductive ApproveResult where
  | approved (emailCount : Nat)
  | alreadyApproved
  | notFound
  | forbidden
deriving DecidableEq, Repr

/-- `approve_article` (`news_app/views.py`): guarded by
`user_passes_test(role == editor)`; looks the article up; if unapproved,
sets `is_approved`, saves (which fires the signal fan-out), then runs the
view's own email loop over every `role='reader'` user and posts to
Twitter once more; if already approved, reports that and does nothing. -/
def approve_article (db : DB) (actor : User) (articleId : Nat) :
    DB × Effects × ApproveResult :=
  if actor.role ≠ Role.editor then (db, Effects.none, ApproveResult.forbidden)
  else
    match findArticle db articleId with
    | Option.none => (db, Effects.none, ApproveResult.notFound)
    | Option.some article =>
      if !article.is_approved then
        let approved := { article with is_approved := true }
        let step := saveExisting db approved
        let viewEmails := (readers step.1.users).map User.id
        (step.1,
         Effects.append step.2 ⟨viewEmails, 1⟩,
         ApproveResult.approved viewEmails.length)
      else
        (db, Effects.none, ApproveResult.alreadyApproved)

/-! ## Article creation and editing -/

/-- Outcome of `create_article`. -/
inductive CreateResult where
  | created (articleId : Nat)
  | editorBlocked
  | invalidForm
deriving DecidableEq, Repr

/-- `create_article` (`news_app/views.py`): blocks only `role='editor'`;
a valid `ArticleForm` (non-blank required fields `title` and `content`)
is saved with `author = request.user`, unapproved.  The `post_save`
signal fires with `created=True` and so does nothing. -/
def create_article (db : DB) (actor : User) (title content : String)
    (publisher : Option Nat) (newId now : Nat) : DB × CreateResult :=
  if actor.role = Role.editor then (db, CreateResult.editorBlocked)
  else if title = "" ∨ content = "" then (db, CreateResult.invalidForm)
  else
    let a : Article :=
      { id := newId, title := title, content := content, author := actor.id,
        publisher := publisher, is_approved := false, created_at := now }
    ({ db with articles := db.articles ++ [a] }, CreateResult.created newId)

/-- Outcome of `update_article`. -/
inductive UpdateResult where
  | ok
  | forbidden
  | notFound
  | invalidForm
deriving DecidableEq, Repr

/-- `update_article` (`news_app/views.py`): permitted to the author or any
editor; a valid `ArticleForm` updates exactly `title`, `content` and
`publisher` (the `Meta.fields` of the form) and saves, firing the
`post_save` signal with `created=False`. -/
def update_article (db : DB) (actor : User) (articleId : Nat)
    (title content : String) (publisher : Option Nat) :
    DB × Effects × UpdateResult :=
  match findArticle db articleId with
  | Option.none => (db, Effects.none, UpdateResult.notFound)
  | Option.some article =>
    if actor.id ≠ article.author ∧ actor.role ≠ Role.editor then
      (db, Effects.none, UpdateResult.forbidden)
    else if title = "" ∨ content = "" then
      (db, Effects.none, UpdateResult.invalidForm)
    else
      let updated := { article with title := title, content := content, publisher := publisher }
      let step := saveExisting db updated
      (step.1, step.2, UpdateResult.ok)

/-! ## Visibility resolver (`api/views.py`) -/

/-- Whether an article matches a reader's subscriptions:
`Q(publisher__in=subscribed_publishers) | Q(author__in=subscribed_journalists)`
(a null publisher matches no `__in` clause). -/
def articleMatchesSubs (user : User) (a : Article) : Bool :=
  (match a.publisher with
   | Option.none => false
   | Option.some p => decide (p ∈ user.subscribed_publishers))
  || decide (a.author ∈ user.subscribed_journalists)

/-- `order_by('-created_at')`: newest first. -/
def createdDescRel (a b : Article) : Prop := b.created_at ≤ a.created_at

instance : DecidableRel createdDescRel := fun a b => Nat.decLe b.created_at a.created_at

instance : IsTotal Article createdDescRel :=
  ⟨fun a b => Nat.le_total b.created_at a.created_at⟩

instance : IsTrans Article createdDescRel :=
  ⟨fun _ _ _ hab hbc => Nat.le_trans hbc hab⟩

/-- Sort a result set by `created_at` descending. -/
def orderByCreatedDesc (l : List Article) : List Article :=
  l.insertionSort createdDescRel

/-- `ArticleViewSet.get_queryset`: starts from the approved articles;
readers are restricted to their subscriptions (`.distinct()`), journalists
to their own rows of that already-filtered queryset, editors get the whole
table; the result is ordered by `created_at` descending. -/
def get_queryset (db : DB) (user : User) : List Article :=
  let base := db.articles.filter (fun a => a.is_approved)
  let q :=
    if user.role = Role.reader then
      base.filter (articleMatchesSubs user)
    else if user.role = Role.journalist then
      base.filter (fun a => a.author = user.id)
    else if user.role = Role.editor then
      db.articles
    else base
  orderByCreatedDesc q

/-- Result of the `my_subscriptions` action. -/
inductive SubsQueryResult where
  | ok (articles : List Article)
  | forbidden
deriving DecidableEq, Repr

/-- `ArticleViewSet.my_subscriptions`: readers only; one filter combining
the subscription disjunction with `is_approved=True`, then `.distinct()`
and `order_by('-created_at')`. -/
def my_subscriptions (db : DB) (user : User) : SubsQueryResult :=
  if user.role ≠ Role.reader then SubsQueryResult.forbidden
  else
    SubsQueryResult.ok
      (orderByCreatedDesc
        (db.articles.filter (fun a => articleMatchesSubs user a && a.is_approved)))

/-- `my_articles` (`news_app/views.py`): all of the user's own articles,
approved or not, newest first. -/
def my_articles (db : DB) (user : User) : List Article :=
  orderByCreatedDesc (db.articles.filter (fun a => a.author = user.id))

/-! ## Subscription manager (`api/views.py`) -/

/-- Outcome of a subscription action (HTTP 200 / 403 / 404 / 400). -/
inductive SubResult where
  | ok
  | forbidden
  | notFound
  | badRequest
deriving DecidableEq, Repr

/-- `PublisherViewSet.subscribe`: readers only; `get_object` then m2m `add`. -/
def publisher_subscribe (db : DB) (actor : User) (pid : Nat) : DB × SubResult :=
  if actor.role ≠ Role.reader then (db, SubResult.forbidden)
  else
    match findPublisher db pid with
    | Option.none => (db, SubResult.notFound)
    | Option.some _ =>
      (db.updateUser actor.id
        (fun u => { u with subscribed_publishers := addId u.subscribed_publishers pid }),
       SubResult.ok)

/-- `PublisherViewSet.unsubscribe`: `get_object` then m2m `remove`.
The source has no role check here. -/
def publisher_unsubscribe (db : DB) (actor : User) (pid : Nat) : DB × SubResult :=
  match findPublisher db pid with
  | Option.none => (db, SubResult.notFound)
  | Option.some _ =>
    (db.updateUser actor.id
      (fun u => { u with subscribed_publishers := removeId u.subscribed_publishers pid }),
     SubResult.ok)

/-- `UserViewSet.get_object`: resolves the pk inside
`get_queryset = CustomUser.objects.filter(role='journalist')`, so a
non-journalist pk raises 404. -/
def findJournalist (db : DB) (uid : Nat) : Option User :=
  (db.users.filter (fun u => u.role = Role.journalist)).find? (fun u => u.id = uid)

/-- `UserViewSet.subscribe`: readers only; `get_object` over the
journalist-filtered queryset; then an explicit role re-check returning
400, then m2m `add`. -/
def user_subscribe (db : DB) (actor : User) (targetId : Nat) : DB × SubResult :=
  if actor.role ≠ Role.reader then (db, SubResult.forbidden)
  else
    match findJournalist db targetId with
    | Option.none => (db, SubResult.notFound)
    | Option.some j =>
      if j.role ≠ Role.journalist then (db, SubResult.badRequest)
      else
        (db.updateUser actor.id
          (fun u => { u with subscribed_journalists := addId u.subscribed_journalists targetId }),
         SubResult.ok)

/-- `UserViewSet.unsubscribe`: `get_object` over the journalist-filtered
queryset, then m2m `remove`.  The source has no role check here. -/
def user_unsubscribe (db : DB) (actor : User) (targetId : Nat) : DB × SubResult :=
  match findJournalist db targetId with
  | Option.none => (db, SubResult.notFound)
  | Option.some _ =>
    (db.updateUser actor.id
      (fun u => { u with subscribed_journalists := removeId u.subscribed_journalists targetId }),
     SubResult.ok)

/-! ## Well-formedness of a database state -/

/-- Database well-formedness: primary keys are unique. -/
def DB.wf (db : DB) : Prop :=
  (db.users.map User.id).Nodup ∧ (db.articles.map Article.id).Nodup

instance (db : DB) : Decidable db.wf := by
  unfold DB.wf; infer_instance

/-! ## Concrete fixtures

A small database used to evaluate the operations on concrete inputs:
a reader with no subscriptions, a journalist, an editor, a reader
subscribed both to the journalist and to the publisher, one publisher,
one unapproved article (by the journalist, with the publisher) and one
approved article (by the journalist, no publisher). -/

/-- A reader with no subscriptions. -/
def exReader : User := ⟨1, Role.reader, [], []⟩

/-- A journalist. -/
def exJournalist : User := ⟨2, Role.journalist, [], []⟩

/-- An editor. -/
def exEditor : User := ⟨3, Role.editor, [], []⟩

/-- A reader subscribed to `exJournalist` and to `exPub`. -/
def exSubReader : User := ⟨4, Role.reader, [2], [20]⟩

/-- A publisher. -/
def exPub : Publisher := ⟨20, "Daily"⟩

/-- An unapproved article by `exJournalist` with publisher `exPub`. -/
def exArt : Article := ⟨10, "X", "B", 2, Option.some 20, false, 1⟩

/-- An approved article by `exJournalist` with no publisher. -/
def exArt2 : Article := ⟨11, "Y", "B2", 2, Option.none, true, 2⟩

/-- The fixture database. -/
def exDB : DB := ⟨[exReader, exJournalist, exEditor, exSubReader], [exPub], [exArt, exArt2]⟩

/-- `exArt` once approved. -/
def exArtA : Article := ⟨10, "X", "B", 2, Option.some 20, true, 1⟩

/-- The fixture database with both articles approved. -/
def exDBA : DB := ⟨[exReader, exJournalist, exEditor, exSubReader], [exPub], [exArtA, exArt2]⟩

/-! ## Helper lemmas -/

/-- Membership in a queryset union. -/
theorem mem_qsUnion {xs ys : List User} {u : User} :
    u ∈ qsUnion xs ys ↔ u ∈ xs ∨ u ∈ ys := by
  simp only [qsUnion, List.mem_append, List.mem_filter, decide_eq_true_eq]
  by_cases h : u ∈ xs <;> simp [h]

/-- Every member of the signal audience is a `role='reader'` user. -/
theorem signalAudience_subset_readers {users : List User} {a : Article} {u : User}
    (h : u ∈ signalAudience users a) : u ∈ readers users := by
  unfold signalAudience at h
  simp only [readers, List.mem_filter, decide_eq_true_eq]
  cases hp : a.publisher with
  | none =>
    rw [hp] at h
    simp only [journalistSubscribers, List.mem_filter, decide_eq_true_eq] at h
    exact ⟨h.1, h.2.1⟩
  | some p =>
    rw [hp] at h
    rcases mem_qsUnion.mp h with h' | h' <;>
      simp only [journalistSubscribers, publisherSubscribers, List.mem_filter,
        decide_eq_true_eq] at h' <;>
      exact ⟨h'.1, h'.2.1⟩

/-- A successful article lookup returns a row with the requested id. -/
theorem findArticle_some {db : DB} {aid : Nat} {a : Article}
    (h : findArticle db aid = Option.some a) : a.id = aid ∧ a ∈ db.articles := by
  rw [findArticle] at h
  have h1 := List.find?_some h
  simp only [decide_eq_true_eq] at h1
  exact ⟨h1, List.mem_of_find?_eq_some h⟩

/-- After overwriting the row with id `a'.id`, looking that id up finds
exactly the overwritten row (provided some row with that id existed). -/
theorem find?_map_set (l : List Article) (a' : Article)
    (h : (l.find? (fun x => x.id = a'.id)).isSome) :
    (l.map (fun x => if x.id = a'.id then a' else x)).find? (fun x => x.id = a'.id)
      = Option.some a' := by
  induction l with
  | nil => simp at h
  | cons x xs ih =>
    by_cases hx : x.id = a'.id
    · simp [hx]
    · rw [List.find?_cons_of_neg _ (by simp [hx])] at h
      simpa [hx, List.find?_cons_of_neg] using ih h

/-- `findArticle` after `setArticle`. -/
theorem findArticle_setArticle (db : DB) (a' : Article) (aid : Nat)
    (hid : a'.id = aid) (h : (findArticle db aid).isSome) :
    findArticle (db.setArticle a') aid = Option.some a' := by
  subst hid
  exact find?_map_set db.articles a' h

/-- A row-wise update that fixes every row is the identity. -/
theorem map_update_id (l : List User) (uid : Nat) (f : User → User)
    (h : ∀ u ∈ l, u.id = uid → f u = u) :
    l.map (fun u => if u.id = uid then f u else u) = l := by
  induction l with
  | nil => rfl
  | cons x xs ih =>
    have hx : (if x.id = uid then f x else x) = x := by
      by_cases hxi : x.id = uid
      · simp [hxi, h x (List.mem_cons_self x xs) hxi]
      · simp [hxi]
    simp only [List.map_cons, hx, List.cons.injEq, true_and]
    exact ih (fun u hu => h u (List.mem_cons_of_mem x hu))

/-- In a well-formed database, user rows are determined by their id. -/
theorem user_id_inj {db : DB} (hwf : db.wf) {u v : User}
    (hu : u ∈ db.users) (hv : v ∈ db.users) (h : u.id = v.id) : u = v :=
  List.inj_on_of_nodup_map hwf.1 hu hv h

/-- A successful journalist lookup returns a journalist row with the
requested id. -/
theorem findJournalist_some {db : DB} {uid : Nat} {j : User}
    (h : findJournalist db uid = Option.some j) :
    j.role = Role.journalist ∧ j.id = uid ∧ j ∈ db.users := by
  rw [findJournalist] at h
  have hmem := List.mem_of_find?_eq_some h
  have hid := List.find?_some h
  simp only [decide_eq_true_eq] at hid
  rw [List.mem_filter] at hmem
  exact ⟨of_decide_eq_true hmem.2, hid, hmem.1⟩

/-- In a well-formed database, looking a non-journalist's id up in the
journalist-filtered queryset fails. -/
theorem findJournalist_eq_none {db : DB} (hwf : db.wf) {target : User}
    (ht : target ∈ db.users) (hnj : target.role ≠ Role.journalist) :
    findJournalist db target.id = Option.none := by
  rw [findJournalist, List.find?_eq_none]
  intro u hu
  rw [List.mem_filter] at hu
  intro hid
  have : u = target := user_id_inj hwf hu.1 ht (of_decide_eq_true hid)
  exact hnj (this ▸ of_decide_eq_true hu.2)

/-- The signal audience does not depend on the approval flag. -/
theorem signalAudience_set_approved (users : List User) (a : Article) :
    signalAudience users { a with is_approved := true } = signalAudience users a := rfl

/-! ## Claims -/

/-- C1 (counterexample): on the approval transition of `exArt` the view's
own loop attempts an email to the unsubscribed reader `exReader`
(id 1), who is outside the union of the author's and the publisher's
subscribers — so an email is attempted outside the audience the claim
allows. -/
theorem approve_emails_outside_union :
    exReader.role = Role.reader
    ∧ exReader.id ∉ exReader.subscribed_journalists
    ∧ (∀ p ∈ exReader.subscribed_publishers, False)
    ∧ (1 : Nat) ∈ (approve_article exDB exEditor 10).2.1.emailsTo
    ∧ (1 : Nat) ∉ (signalAudience exDB.users exArtA).map User.id := by
  decide

/-- C1 (amended): when an editor approves an unapproved article, the
attempted emails are the signal-handler pass over the deduplicated union
of the author's and the publisher's reader subscribers, followed by the
view's own pass over every user with role reader; hence the set of users
emailed is exactly the set of all readers (not the union), and every
union member is attempted at least twice. -/
theorem approve_email_audience (db : DB) (actor : User) (aid : Nat) (a : Article)
    (hrole : actor.role = Role.editor)
    (hfind : findArticle db aid = Option.some a)
    (hunapp : a.is_approved = false) :
    (approve_article db actor aid).2.1.emailsTo
        = (signalAudience db.users a).map User.id ++ (readers db.users).map User.id
    ∧ (∀ x, x ∈ (approve_article db actor aid).2.1.emailsTo
          ↔ x ∈ (readers db.users).map User.id)
    ∧ ∀ x ∈ (signalAudience db.users a).map User.id,
        2 ≤ (approve_article db actor aid).2.1.emailsTo.count x := by
  have heq : (approve_article db actor aid).2.1.emailsTo
      = (signalAudience db.users a).map User.id ++ (readers db.users).map User.id := by
    simp [approve_article, hrole, hfind, hunapp, saveExisting, DB.setArticle,
      handle_article_approval, Effects.append, signalAudience_set_approved]
  refine ⟨heq, ?_, ?_⟩
  · intro x
    rw [heq, List.mem_append]
    constructor
    · rintro (hx | hx)
      · rcases List.mem_map.mp hx with ⟨u, hu, rfl⟩
        exact List.mem_map.mpr ⟨u, signalAudience_subset_readers hu, rfl⟩
      · exact hx
    · exact Or.inr
  · intro x hx
    rw [heq, List.count_append]
    have hx2 : x ∈ (readers db.users).map User.id := by
      rcases List.mem_map.mp hx with ⟨u, hu, rfl⟩
      exact List.mem_map.mpr ⟨u, signalAudience_subset_readers hu, rfl⟩
    have c1 : 1 ≤ ((signalAudience db.users a).map User.id).count x :=
      List.one_le_count_iff.mpr hx
    have c2 : 1 ≤ ((readers db.users).map User.id).count x :=
      List.one_le_count_iff.mpr hx2
    omega

/-- C1 (witness): the amended audience equation evaluated on the fixture
approval. -/
theorem approve_email_audience_witness :
    (approve_article exDB exEditor 10).2.1.emailsTo
        = (signalAudience exDB.users exArt).map User.id ++ (readers exDB.users).map User.id :=
  (approve_email_audience exDB exEditor 10 exArt (by decide) (by decide) (by decide)).1

/-- C2 (counterexample): two successive approve calls on the fixture
article make two social posts in total (both during the first call, one
from the view and one from the `post_save` signal), refuting "the
notification dispatcher is invoked at most once in total". -/
theorem approve_two_social_posts :
    (approve_article exDB exEditor 10).2.1.twitterPosts
        + (approve_article (approve_article exDB exEditor 10).1 exEditor 10).2.1.twitterPosts = 2
    ∧ ¬ ((approve_article exDB exEditor 10).2.1.twitterPosts
        + (approve_article (approve_article exDB exEditor 10).1 exEditor 10).2.1.twitterPosts ≤ 1) := by
  decide

/-- C2 (amended): the first approval of an unapproved article fires the
fan-out twice (two social posts: signal pass and view pass); a second
approve call on the now-approved item leaves the database unchanged,
produces no side effects, and reports the item as already approved. -/
theorem approve_second_call_noop (db : DB) (actor : User) (aid : Nat) (a : Article)
    (hrole : actor.role = Role.editor)
    (hfind : findArticle db aid = Option.some a)
    (hunapp : a.is_approved = false) :
    (approve_article db actor aid).2.1.twitterPosts = 2
    ∧ approve_article (approve_article db actor aid).1 actor aid
        = ((approve_article db actor aid).1, Effects.none, ApproveResult.alreadyApproved) := by
  have hid : a.id = aid := (findArticle_some hfind).1
  have hdb1 : (approve_article db actor aid).1
      = db.setArticle { a with is_approved := true } := by
    simp [approve_article, hrole, hfind, hunapp, saveExisting]
  have hfind1 : findArticle (approve_article db actor aid).1 aid
      = Option.some { a with is_approved := true } := by
    rw [hdb1]
    exact findArticle_setArticle db _ aid (by simpa using hid) (by rw [hfind]; rfl)
  constructor
  · simp [approve_article, hrole, hfind, hunapp, saveExisting, handle_article_approval,
      Effects.append]
  · have h2 : ∀ db1 : DB, findArticle db1 aid = Option.some { a with is_approved := true } →
        approve_article db1 actor aid = (db1, Effects.none, ApproveResult.alreadyApproved) := by
      intro db1 hf
      simp [approve_article, hrole, hf]
    exact h2 _ hfind1

/-- C2 (witness): the amended idempotence statement evaluated on the
fixture approval. -/
theorem approve_second_call_noop_witness :
    (approve_article exDB exEditor 10).2.1.twitterPosts = 2
    ∧ approve_article (approve_article exDB exEditor 10).1 exEditor 10
        = ((approve_article exDB exEditor 10).1, Effects.none, ApproveResult.alreadyApproved) :=
  approve_second_call_noop exDB exEditor 10 exArt (by decide) (by decide) (by decide)

/-- C3 (confirmed): every `post_save` of an existing (`created=False`)
article with `is_approved=True` runs the full fan-out — one email per
member of the subscriber union plus one social post — and in particular
an author's or editor's edit of an approved article via `update_article`
re-fires it; the fan-out is not restricted to the first approval
transition. -/
theorem approved_save_refires_fanout :
    (∀ (users : List User) (inst : Article), inst.is_approved = true →
        handle_article_approval users inst false
          = ⟨(signalAudience users inst).map User.id, 1⟩)
    ∧ ∀ (db : DB) (actor : User) (aid : Nat) (t c : String) (p : Option Nat) (a : Article),
        findArticle db aid = Option.some a → a.is_approved = true →
        (actor.id = a.author ∨ actor.role = Role.editor) → t ≠ "" → c ≠ "" →
        (update_article db actor aid t c p).2.1
            = ⟨(signalAudience db.users
                  { a with title := t, content := c, publisher := p }).map User.id, 1⟩
          ∧ (update_article db actor aid t c p).2.2 = UpdateResult.ok := by
  constructor
  · intro users inst h
    simp [handle_article_approval, h]
  · intro db actor aid t c p a hfind happ hperm ht hc
    have hng : ¬ (actor.id ≠ a.author ∧ actor.role ≠ Role.editor) := by tauto
    have hnf : ¬ (t = "" ∨ c = "") := by tauto
    constructor <;>
      simp [update_article, hfind, hng, hnf, saveExisting, handle_article_approval, happ]

/-- C3 (witness): the fan-out equations evaluated on the fixture's
approved article, for a direct signal invocation and for an editor's
edit. -/
theorem approved_save_refires_fanout_witness :
    handle_article_approval exDB.users exArt2 false
        = ⟨(signalAudience exDB.users exArt2).map User.id, 1⟩
    ∧ (update_article exDB exEditor 11 "T" "C" Option.none).2.1
        = ⟨(signalAudience exDB.users
              { exArt2 with
                  title := "T", content := "C", publisher := Option.none }).map User.id, 1⟩ :=
  ⟨approved_save_refires_fanout.1 exDB.users exArt2 (by decide),
   (approved_save_refires_fanout.2 exDB exEditor 11 "T" "C" Option.none exArt2
      (by decide) (by decide) (Or.inr (by decide)) (by decide) (by decide)).1⟩

/-- C4 (counterexample): the fixture journalist's own unapproved article
is absent from the API visible-content query, refuting "including items
with `is_approved` false": the journalist branch filters the queryset
that has already been restricted to approved articles. -/
theorem journalist_unapproved_hidden :
    exJournalist.role = Role.journalist
    ∧ exArt ∈ exDB.articles
    ∧ exArt.author = exJournalist.id
    ∧ exArt.is_approved = false
    ∧ exArt ∉ get_queryset exDB exJournalist := by
  decide

/-- C4 (amended): for a journalist the API visible-content query returns
exactly the approved items they authored (no item authored by anyone
else); their unapproved items are excluded there and appear only in the
separate `my_articles` view, which returns all of their items regardless
of approval. -/
theorem journalist_visible_approved_only (db : DB) (u : User)
    (h : u.role = Role.journalist) :
    (∀ a, a ∈ get_queryset db u ↔ a ∈ db.articles ∧ a.is_approved = true ∧ a.author = u.id)
    ∧ (∀ a, a ∈ my_articles db u ↔ a ∈ db.articles ∧ a.author = u.id) := by
  constructor
  · intro a
    simp [get_queryset, h, orderByCreatedDesc, List.mem_insertionSort, List.mem_filter,
      and_assoc]
    exact fun _ => and_comm
  · intro a
    simp [my_articles, orderByCreatedDesc, List.mem_insertionSort, List.mem_filter]

/-- C4 (witness): on the fixture, the approved own article is visible,
the unapproved one is not, yet it is in `my_articles`. -/
theorem journalist_visible_approved_only_witness :
    exArt2 ∈ get_queryset exDB exJournalist
    ∧ exArt ∉ get_queryset exDB exJournalist
    ∧ exArt ∈ my_articles exDB exJournalist := by
  have h := journalist_visible_approved_only exDB exJournalist (by decide)
  refine ⟨(h.1 exArt2).mpr (by decide), ?_, (h.2 exArt).mpr (by decide)⟩
  intro hmem
  have := (h.1 exArt).mp hmem
  simp [exArt] at this

/-- C5 (code bug): `create_article` only blocks editors, so a caller with
role reader successfully creates an article whose author is that reader —
contradicting the view's own documented journalist-only intent and the
model's `limit_choices_to={'role': 'journalist'}` constraint.  Evaluated
at the failing input: the fixture reader submitting a valid form. -/
theorem reader_can_create_article :
    exReader.role = Role.reader
    ∧ (create_article exDB exReader "T" "C" Option.none 99 5).2 = CreateResult.created 99
    ∧ (∃ a ∈ (create_article exDB exReader "T" "C" Option.none 99 5).1.articles,
        a.id = 99 ∧ a.author = exReader.id)
    ∧ exReader.role ≠ Role.journalist := by
  decide

/-- C6 (counterexample): the editor (role ≠ reader) calls the two
unsubscribe operations on existing targets and they succeed instead of
failing with Forbidden — the source has no role check on unsubscribe. -/
theorem unsubscribe_no_role_check :
    exEditor.role ≠ Role.reader
    ∧ (publisher_unsubscribe exDB exEditor 20).2 = SubResult.ok
    ∧ (user_unsubscribe exDB exEditor 2).2 = SubResult.ok
    ∧ (publisher_unsubscribe exDB exEditor 20).2 ≠ SubResult.forbidden
    ∧ (user_unsubscribe exDB exEditor 2).2 ≠ SubResult.forbidden := by
  decide

/-- C6 (amended): when the caller's role is not reader, the two subscribe
operations fail with Forbidden leaving the database unchanged, but the
two unsubscribe operations perform the removal for any authenticated
caller and report success (no Forbidden). -/
theorem subscription_role_guards (db : DB) (actor : User) (pid jid : Nat)
    (h : actor.role ≠ Role.reader) :
    publisher_subscribe db actor pid = (db, SubResult.forbidden)
    ∧ user_subscribe db actor jid = (db, SubResult.forbidden)
    ∧ ((findPublisher db pid).isSome → (publisher_unsubscribe db actor pid).2 = SubResult.ok)
    ∧ ((findJournalist db jid).isSome → (user_unsubscribe db actor jid).2 = SubResult.ok) := by
  refine ⟨by simp [publisher_subscribe, h], by simp [user_subscribe, h], ?_, ?_⟩
  · intro hs
    rcases Option.isSome_iff_exists.mp hs with ⟨pb, hpb⟩
    simp [publisher_unsubscribe, hpb]
  · intro hs
    rcases Option.isSome_iff_exists.mp hs with ⟨j, hj⟩
    simp [user_unsubscribe, hj]

/-- C6 (witness): the amended guards evaluated for the fixture editor. -/
theorem subscription_role_guards_witness :
    publisher_subscribe exDB exEditor 20 = (exDB, SubResult.forbidden)
    ∧ user_subscribe exDB exEditor 2 = (exDB, SubResult.forbidden)
    ∧ (publisher_unsubscribe exDB exEditor 20).2 = SubResult.ok
    ∧ (user_unsubscribe exDB exEditor 2).2 = SubResult.ok := by
  have h := subscription_role_guards exDB exEditor 20 2 (by decide)
  exact ⟨h.1, h.2.1, h.2.2.1 (by decide), h.2.2.2 (by decide)⟩

/-- C7 (counterexample): the fixture reader subscribing to the editor
(a non-journalist target present in the user table) gets NotFound — the
pk is resolved inside the journalist-filtered queryset — not the
InvalidTarget (400) outcome the claim requires; the database is
unchanged. -/
theorem subscribe_editor_target_notfound :
    exReader.role = Role.reader
    ∧ exEditor ∈ exDB.users
    ∧ exEditor.role ≠ Role.journalist
    ∧ user_subscribe exDB exReader exEditor.id = (exDB, SubResult.notFound)
    ∧ (user_subscribe exDB exReader exEditor.id).2 ≠ SubResult.badRequest := by
  decide

/-- C7 (amended): for a reader caller and a stored target whose role is
not journalist, `subscribe_to_journalist` fails with NotFound leaving the
database unchanged; the InvalidTarget (400) branch is unreachable for
every input, because `get_object` resolves the pk inside the
journalist-filtered queryset. -/
theorem subscribe_nonjournalist_notfound (db : DB) (actor target : User)
    (hwf : db.wf) (hr : actor.role = Role.reader)
    (ht : target ∈ db.users) (hnj : target.role ≠ Role.journalist) :
    user_subscribe db actor target.id = (db, SubResult.notFound)
    ∧ ∀ (db' : DB) (actor' : User) (tid : Nat),
        (user_subscribe db' actor' tid).2 ≠ SubResult.badRequest := by
  constructor
  · have hn := findJournalist_eq_none hwf ht hnj
    simp [user_subscribe, hr, hn]
  · intro db' actor' tid
    by_cases h1 : actor'.role ≠ Role.reader
    · simp [user_subscribe, h1]
    · cases hj : findJournalist db' tid with
      | none => simp [user_subscribe, h1, hj]
      | some j =>
        have hrole := (findJournalist_some hj).1
        simp [user_subscribe, h1, hj, hrole]

/-- C7 (witness): the amended statement evaluated for the fixture reader
targeting the editor. -/
theorem subscribe_nonjournalist_notfound_witness :
    user_subscribe exDB exReader exEditor.id = (exDB, SubResult.notFound)
    ∧ (user_subscribe exDB exReader 3).2 ≠ SubResult.badRequest := by
  have h := subscribe_nonjournalist_notfound exDB exReader exEditor
    (by decide) (by decide) (by decide) (by decide)
  exact ⟨h.1, h.2 exDB exReader 3⟩

/-- C8 (confirmed): for a reader, the visible-content query returns
exactly the approved items whose publisher is among the reader's
subscribed publishers or whose author is among their subscribed
journalists; the result has no duplicates, is ordered by `created_at`
descending, is empty (not an error) when both subscription sets are
empty, and the `my_subscriptions` endpoint returns the same list. -/
theorem reader_visible_subscriptions (db : DB) (u : User)
    (hwf : db.wf) (hr : u.role = Role.reader) :
    (∀ a, a ∈ get_queryset db u ↔
        a ∈ db.articles ∧ a.is_approved = true ∧
          ((∃ p, a.publisher = Option.some p ∧ p ∈ u.subscribed_publishers)
            ∨ a.author ∈ u.subscribed_journalists))
    ∧ (get_queryset db u).Nodup
    ∧ List.Sorted createdDescRel (get_queryset db u)
    ∧ (u.subscribed_publishers = [] → u.subscribed_journalists = [] →
        get_queryset db u = [])
    ∧ my_subscriptions db u = SubsQueryResult.ok (get_queryset db u) := by
  have hq : get_queryset db u
      = orderByCreatedDesc
          ((db.articles.filter (fun a => a.is_approved)).filter (articleMatchesSubs u)) := by
    simp [get_queryset, hr]
  have hm : ∀ a : Article, articleMatchesSubs u a = true ↔
      ((∃ p, a.publisher = Option.some p ∧ p ∈ u.subscribed_publishers)
        ∨ a.author ∈ u.subscribed_journalists) := by
    intro a
    unfold articleMatchesSubs
    cases hp : a.publisher <;> simp [hp]
  have hmem : ∀ a, a ∈ get_queryset db u ↔
      a ∈ db.articles ∧ a.is_approved = true ∧
        ((∃ p, a.publisher = Option.some p ∧ p ∈ u.subscribed_publishers)
          ∨ a.author ∈ u.subscribed_journalists) := by
    intro a
    rw [hq]
    simp only [orderByCreatedDesc, List.mem_insertionSort, List.mem_filter, hm a]
    exact and_assoc
  have hnd : (get_queryset db u).Nodup := by
    rw [hq]
    have h0 : db.articles.Nodup := List.Nodup.of_map Article.id hwf.2
    have h1 : ((db.articles.filter (fun a => a.is_approved)).filter
        (articleMatchesSubs u)).Nodup :=
      List.Nodup.filter _ (List.Nodup.filter _ h0)
    exact ((List.perm_insertionSort createdDescRel _).nodup_iff).mpr h1
  have hs : List.Sorted createdDescRel (get_queryset db u) := by
    rw [hq]
    exact List.sorted_insertionSort createdDescRel _
  have hempty : u.subscribed_publishers = [] → u.subscribed_journalists = [] →
      get_queryset db u = [] := by
    intro h1 h2
    rw [hq]
    have hnil : (db.articles.filter (fun a => a.is_approved)).filter
        (articleMatchesSubs u) = [] := by
      rw [List.filter_eq_nil_iff]
      intro a _
      unfold articleMatchesSubs
      cases hp : a.publisher <;> simp [h1, h2]
    rw [hnil]
    rfl
  have hms : my_subscriptions db u = SubsQueryResult.ok (get_queryset db u) := by
    rw [hq]
    simp [my_subscriptions, hr, orderByCreatedDesc]
  exact ⟨hmem, hnd, hs, hempty, hms⟩

/-- C8 (witness): evaluated on the fixture with both articles approved
and the doubly-subscribed reader: the article matching both conditions
appears (once), the result is duplicate-free and sorted, and
`my_subscriptions` agrees. -/
theorem reader_visible_subscriptions_witness :
    exArtA ∈ get_queryset exDBA exSubReader
    ∧ (get_queryset exDBA exSubReader).Nodup
    ∧ List.Sorted createdDescRel (get_queryset exDBA exSubReader)
    ∧ my_subscriptions exDBA exSubReader
        = SubsQueryResult.ok (get_queryset exDBA exSubReader) := by
  have h := reader_visible_subscriptions exDBA exSubReader (by decide) (by decide)
  exact ⟨(h.1 exArtA).mpr ⟨by decide, by decide, Or.inl ⟨20, rfl, by decide⟩⟩,
    h.2.1, h.2.2.1, h.2.2.2.2⟩

/-- C9 (confirmed): the author or any editor can edit an article's title,
content and publisher in any approval state; the stored row afterwards
carries the edited fields with the approval flag unchanged; any other
caller gets Forbidden and the database is unchanged. -/
theorem update_article_frame (db : DB) (actor : User) (aid : Nat)
    (t c : String) (p : Option Nat) (a : Article)
    (hfind : findArticle db aid = Option.some a) (ht : t ≠ "") (hc : c ≠ "") :
    ((actor.id = a.author ∨ actor.role = Role.editor) →
        (update_article db actor aid t c p).2.2 = UpdateResult.ok
        ∧ findArticle (update_article db actor aid t c p).1 aid
            = Option.some { a with title := t, content := c, publisher := p }
        ∧ ({ a with title := t, content := c, publisher := p }).is_approved = a.is_approved)
    ∧ ((actor.id ≠ a.author ∧ actor.role ≠ Role.editor) →
        update_article db actor aid t c p = (db, Effects.none, UpdateResult.forbidden)) := by
  have hid : a.id = aid := (findArticle_some hfind).1
  constructor
  · intro hperm
    have hng : ¬ (actor.id ≠ a.author ∧ actor.role ≠ Role.editor) := by tauto
    have hnf : ¬ (t = "" ∨ c = "") := by tauto
    have hdb : (update_article db actor aid t c p).1
        = db.setArticle { a with title := t, content := c, publisher := p } := by
      simp [update_article, hfind, hng, hnf, saveExisting]
    refine ⟨?_, ?_, rfl⟩
    · simp [update_article, hfind, hng, hnf, saveExisting]
    · rw [hdb]
      exact findArticle_setArticle db _ aid (by simpa using hid) (by rw [hfind]; rfl)
  · intro hforb
    simp [update_article, hfind, hforb.1, hforb.2]

/-- C9 (witness): the author edits the unapproved fixture article (flag
stays false) and the unrelated reader is refused. -/
theorem update_article_frame_witness :
    (update_article exDB exJournalist 10 "T2" "C2" (Option.some 20)).2.2 = UpdateResult.ok
    ∧ findArticle (update_article exDB exJournalist 10 "T2" "C2" (Option.some 20)).1 10
        = Option.some { exArt with title := "T2", content := "C2", publisher := Option.some 20 }
    ∧ ({ exArt with title := "T2", content := "C2", publisher := Option.some 20 }).is_approved
        = exArt.is_approved
    ∧ update_article exDB exReader 10 "T2" "C2" (Option.some 20)
        = (exDB, Effects.none, UpdateResult.forbidden) := by
  have h1 := (update_article_frame exDB exJournalist 10 "T2" "C2" (Option.some 20) exArt
    (by decide) (by decide) (by decide)).1 (Or.inl (by decide))
  have h2 := (update_article_frame exDB exReader 10 "T2" "C2" (Option.some 20) exArt
    (by decide) (by decide) (by decide)).2 (by decide)
  exact ⟨h1.1, h1.2.1, h1.2.2, h2⟩

/-- C10 (confirmed): for a reader stored in the database, subscribing to
an already-subscribed target leaves the database unchanged and succeeds
(set semantics, no duplicate), and unsubscribing a target that is not in
the corresponding set leaves the database unchanged and succeeds rather
than erroring — for both publisher and journalist targets. -/
theorem subscription_idempotent (db : DB) (actor : User) (pid jid : Nat)
    (hwf : db.wf) (hmem : actor ∈ db.users) (hr : actor.role = Role.reader) :
    ((findPublisher db pid).isSome → pid ∈ actor.subscribed_publishers →
        publisher_subscribe db actor pid = (db, SubResult.ok))
    ∧ ((findJournalist db jid).isSome → jid ∈ actor.subscribed_journalists →
        user_subscribe db actor jid = (db, SubResult.ok))
    ∧ ((findPublisher db pid).isSome → pid ∉ actor.subscribed_publishers →
        publisher_unsubscribe db actor pid = (db, SubResult.ok))
    ∧ ((findJournalist db jid).isSome → jid ∉ actor.subscribed_journalists →
        user_unsubscribe db actor jid = (db, SubResult.ok)) := by
  have hfix : ∀ f : User → User, (∀ u ∈ db.users, u.id = actor.id → f u = u) →
      db.updateUser actor.id f = db := by
    intro f hf
    rw [DB.updateUser, map_update_id db.users actor.id f hf]
  refine ⟨?_, ?_, ?_, ?_⟩
  · intro hps hpin
    rcases Option.isSome_iff_exists.mp hps with ⟨pb, hpb⟩
    have hupd : db.updateUser actor.id
        (fun u => { u with subscribed_publishers := addId u.subscribed_publishers pid })
          = db := by
      apply hfix
      intro u hu huid
      have heq : u = actor := user_id_inj hwf hu hmem huid
      subst heq
      have h1 : addId u.subscribed_publishers pid = u.subscribed_publishers := by
        rw [addId, if_pos hpin]
      simp only [h1]
    simp [publisher_subscribe, hr, hpb, hupd]
  · intro hjs hjin
    rcases Option.isSome_iff_exists.mp hjs with ⟨j, hj⟩
    have hjr := (findJournalist_some hj).1
    have hupd : db.updateUser actor.id
        (fun u => { u with subscribed_journalists := addId u.subscribed_journalists jid })
          = db := by
      apply hfix
      intro u hu huid
      have heq : u = actor := user_id_inj hwf hu hmem huid
      subst heq
      have h1 : addId u.subscribed_journalists jid = u.subscribed_journalists := by
        rw [addId, if_pos hjin]
      simp only [h1]
    simp [user_subscribe, hr, hj, hjr, hupd]
  · intro hps hpout
    rcases Option.isSome_iff_exists.mp hps with ⟨pb, hpb⟩
    have hupd : db.updateUser actor.id
        (fun u => { u with subscribed_publishers := removeId u.subscribed_publishers pid })
          = db := by
      apply hfix
      intro u hu huid
      have heq : u = actor := user_id_inj hwf hu hmem huid
      subst heq
      have h1 : removeId u.subscribed_publishers pid = u.subscribed_publishers := by
        rw [removeId]
        apply List.filter_eq_self.mpr
        intro y hy
        simp only [decide_eq_true_eq]
        intro hcontr
        exact hpout (hcontr ▸ hy)
      simp only [h1]
    simp [publisher_unsubscribe, hpb, hupd]
  · intro hjs hjout
    rcases Option.isSome_iff_exists.mp hjs with ⟨j, hj⟩
    have hupd : db.updateUser actor.id
        (fun u => { u with subscribed_journalists := removeId u.subscribed_journalists jid })
          = db := by
      apply hfix
      intro u hu huid
      have heq : u = actor := user_id_inj hwf hu hmem huid
      subst heq
      have h1 : removeId u.subscribed_journalists jid = u.subscribed_journalists := by
        rw [removeId]
        apply List.filter_eq_self.mpr
        intro y hy
        simp only [decide_eq_true_eq]
        intro hcontr
        exact hjout (hcontr ▸ hy)
      simp only [h1]
    simp [user_unsubscribe, hj, hupd]

/-- C10 (witness): the doubly-subscribed reader re-subscribing to both of
its targets and the unsubscribed reader unsubscribing from both — all
four operations succeed and leave the fixture database unchanged. -/
theorem subscription_idempotent_witness :
    publisher_subscribe exDBA exSubReader 20 = (exDBA, SubResult.ok)
    ∧ user_subscribe exDBA exSubReader 2 = (exDBA, SubResult.ok)
    ∧ publisher_unsubscribe exDBA exReader 20 = (exDBA, SubResult.ok)
    ∧ user_unsubscribe exDBA exReader 2 = (exDBA, SubResult.ok) := by
  have h1 := subscription_idempotent exDBA exSubReader 20 2
    (by decide) (by decide) (by decide)
  have h2 := subscription_idempotent exDBA exReader 20 2
    (by decide) (by decide) (by decide)
  exact ⟨h1.1 (by decide) (by decide), h1.2.1 (by decide) (by decide),
    h2.2.2.1 (by decide) (by decide), h2.2.2.2 (by decide) (by decide)⟩

end NewsApp
